import Mathlib

set_option maxHeartbeats 1000000

/-!
Shallow embedding of the whatsapp-reservas backend (src/index.js).

The server is an Express app.  Pure helpers (normalizeText, isISODate,
isUUID, restaurantLabel, formatAlternatives, JS parseInt) are translated as
Lean functions.  Each HTTP handler is translated as a pure function from an
environment (the results the database client / remote procedures would
return at each call site) and the request to a response value together with
the list of remote-procedure calls and table writes it performs.  JS
truthiness on optional string inputs and JS `parseInt(-, 10)` semantics are
modelled explicitly.  Strings are Lean strings; `undefined` is `Option.none`.
-/

namespace WhatsappReservas

/-- JS truthiness of an optional string value: `undefined` and `""` are falsy,
every non-empty string is truthy. -/
def truthy : Option String → Bool
  | none => false
  | some s => s != ""

/-- Numeric value of a list of decimal digit characters. -/
def digitsVal (ds : List Char) : Nat :=
  ds.foldl (fun a c => a * 10 + (c.toNat - 48)) 0

/-- JS `parseInt(s, 10)`: skip leading whitespace, read an optional sign and
then the longest run of decimal digits; the result is NaN (here `none`) when
that run is empty. -/
def jsParseInt (s : String) : Option Int :=
  match s.toList.dropWhile Char.isWhitespace with
  | '-' :: r =>
      let ds := r.takeWhile Char.isDigit
      if ds.isEmpty then none else some (-(digitsVal ds : Int))
  | '+' :: r =>
      let ds := r.takeWhile Char.isDigit
      if ds.isEmpty then none else some (digitsVal ds)
  | r =>
      let ds := r.takeWhile Char.isDigit
      if ds.isEmpty then none else some (digitsVal ds)

/-- `parseInt` applied to a possibly missing query/body value; a missing value
parses to NaN (JS coerces `undefined` to the string "undefined"). -/
def jsParseIntOpt : Option String → Option Int
  | none => none
  | some s => jsParseInt s

/-- ASCII lower-casing of one character, as `toLowerCase` acts on ASCII. -/
def lowerChar (c : Char) : Char :=
  if 'A' ≤ c && c ≤ 'Z' then Char.ofNat (c.toNat + 32) else c

/-- `normalizeText` from src/index.js: trim then lower-case.  Implemented over
the character list (the inputs the handlers compare against are ASCII, where
this agrees with the JS `trim()`/`toLowerCase()` methods). -/
def normalizeText (s : String) : String :=
  String.mk ((((s.data.dropWhile Char.isWhitespace).reverse.dropWhile
    Char.isWhitespace).reverse).map lowerChar)

/-- `isISODate` from src/index.js: the regex `^\d\x7b4\x7d-\d\x7b2\x7d-\d\x7b2\x7d$`. -/
def isISODate (s : String) : Bool :=
  match s.toList with
  | [y1, y2, y3, y4, c1, m1, m2, c2, d1, d2] =>
      y1.isDigit && y2.isDigit && y3.isDigit && y4.isDigit && c1 == '-' &&
      m1.isDigit && m2.isDigit && c2 == '-' && d1.isDigit && d2.isDigit
  | _ => false

/-- Hexadecimal digit, either case (the source regex carries the `i` flag). -/
def isHexDigit (c : Char) : Bool :=
  c.isDigit || ('a' ≤ c && c ≤ 'f') || ('A' ≤ c && c ≤ 'F')

/-- Character admissible at position `i` of a UUID per the `isUUID` regex of
src/index.js: dashes at 8/13/18/23, version digit 1-5 at 14, variant 8/9/a/b
at 19 (case-insensitively), hex digits elsewhere. -/
def uuidCharOk (i : Nat) (c : Char) : Bool :=
  if i == 8 || i == 13 || i == 18 || i == 23 then c == '-'
  else if i == 14 then c == '1' || c == '2' || c == '3' || c == '4' || c == '5'
  else if i == 19 then
    c.toLower == '8' || c.toLower == '9' || c.toLower == 'a' || c.toLower == 'b'
  else isHexDigit c

/-- `isUUID` from src/index.js. -/
def isUUID (s : String) : Bool :=
  let cs := s.toList
  cs.length == 36 && cs.enum.all fun p => uuidCharOk p.1 p.2

/-- `restaurantLabel` from src/index.js. -/
def restaurantLabel (code : String) : String :=
  if code == "deliclub" then "🥩 deliclub"
  else if code == "brodo-pasta" then "🍝 brodo-pasta"
  else if code == "brodo-pizza" then "🍕 brodo-pizza"
  else code

/-- The `MENU_TEXT` constant of src/index.js. -/
def MENU_TEXT : String :=
  "👋 Bienvenido al sistema de reservas\n\n" ++
  "Escribí una opción:\n" ++
  "1️⃣ Reservar mesa\n" ++
  "2️⃣ Cancelar reserva\n" ++
  "3️⃣ Locales"

/-- `localsText` from src/index.js. -/
def localsText : String :=
  "📍 Locales:\n" ++
  "🥩 deliclub\n" ++
  "🍝 brodo-pasta\n" ++
  "🍕 brodo-pizza\n\n" ++
  "Tip: escribí *menu* para volver al inicio."

/-- A row returned by the `suggest_alternatives` remote procedure. -/
structure AltSlot where
  service_date : String
  service : String
deriving Repr, DecidableEq

/-- `formatAlternatives` from src/index.js: first three alternatives, one
numbered line each. -/
def formatAlternatives (alts : List AltSlot) : String :=
  if alts.isEmpty then "No encontré alternativas en los próximos días."
  else
    let top := alts.take 3
    String.intercalate "\n" (top.enum.map fun p =>
      toString (p.1 + 1) ++ ") " ++ p.2.service_date ++ " — " ++
      (if p.2.service == "LUNCH" then "Lunch" else "Dinner"))

/-- A row returned by the `check_availability` remote procedure; the handlers
only inspect its `ok` and `reason` fields. -/
structure Avail where
  ok : Bool
  reason : Option String := none
deriving Repr, DecidableEq

/-- A remote-procedure invocation, with the argument values the handler passed
(arguments taken from a session record may be null, hence `Option`). -/
inductive RpcCall
  | checkAvailability (code date service : Option String) (party : Option Int)
  | suggestAlternatives (code date service : Option String) (party : Option Int)
      (daysAhead : Option Int)
deriving Repr, DecidableEq

/-! ## GET /availability -/

/-- Query parameters of GET /availability (absent parameter = `none`). -/
structure AvailQuery where
  restaurant : Option String := none
  date : Option String := none
  service : Option String := none
  party : Option String := none

/-- Response of GET /availability. -/
inductive AvailResp
  | badRequest (msg : String)
  | dbError (msg : String)
  | success (result : Option Avail)
deriving Repr, DecidableEq

/-- HTTP status of an /availability response. -/
def AvailResp.status : AvailResp → Nat
  | .badRequest _ => 400
  | .dbError _ => 500
  | .success _ => 200

def availMissingMsg : String :=
  "Missing or invalid query params. Use restaurant, date, service, party."

/-- The GET /availability handler of src/index.js.  `rpc` is the result the
`check_availability` remote procedure would return.  Also returns the list of
remote-procedure calls performed. -/
def getAvailability (rpc : Except String (List Avail)) (q : AvailQuery) :
    AvailResp × List RpcCall :=
  let party := jsParseIntOpt q.party
  if !truthy q.restaurant || !truthy q.date || !truthy q.service || party.isNone then
    (.badRequest availMissingMsg, [])
  else
    let call := RpcCall.checkAvailability q.restaurant q.date q.service party
    match rpc with
    | .error m => (.dbError m, [call])
    | .ok data => (.success data.head?, [call])

/-! ## GET /alternatives -/

/-- Query parameters of GET /alternatives. -/
structure AltQuery where
  restaurant : Option String := none
  date : Option String := none
  service : Option String := none
  party : Option String := none
  days : Option String := none

/-- Response of GET /alternatives. -/
inductive AltResp
  | badRequest (msg : String)
  | dbError (msg : String)
  | success (alternatives : List AltSlot)
deriving Repr, DecidableEq

/-- HTTP status of an /alternatives response. -/
def AltResp.status : AltResp → Nat
  | .badRequest _ => 400
  | .dbError _ => 500
  | .success _ => 200

def altMissingMsg : String :=
  "Missing or invalid query params. Use restaurant, date, service, party, days(optional)."

/-- The GET /alternatives handler of src/index.js: `days` defaults to 14 when
the parameter is falsy, else it is `parseInt`-ed (NaN modelled as `none`). -/
def getAlternatives (rpc : Except String (List AltSlot)) (q : AltQuery) :
    AltResp × List RpcCall :=
  let party := jsParseIntOpt q.party
  let days : Option Int := if truthy q.days then jsParseIntOpt q.days else some 14
  if !truthy q.restaurant || !truthy q.date || !truthy q.service || party.isNone then
    (.badRequest altMissingMsg, [])
  else
    let call := RpcCall.suggestAlternatives q.restaurant q.date q.service party days
    match rpc with
    | .error m => (.dbError m, [call])
    | .ok data => (.success data, [call])

/-! ## POST /reserve -/

/-- Body fields of POST /reserve. -/
structure ReserveBody where
  restaurant : Option String := none
  date : Option String := none
  service : Option String := none
  party : Option String := none
  customer_name : Option String := none
  customer_phone : Option String := none

/-- A reservation row as inserted by POST /reserve. -/
structure ReservationRow where
  restaurant_id : String
  customer_name : String
  customer_phone : String
  party_size : Int
  service_date : String
  service : String
  status : String
deriving Repr, DecidableEq

/-- Response of POST /reserve.  `crash` models the uncaught exception the
handler would raise reading `insertData[0].id` when the insert succeeded but
returned no row. -/
inductive ReserveResp
  | badRequest (msg : String)
  | dbError (msg : String)
  | conflict (reason : String) (details : Option Avail)
  | notFound (msg : String)
  | success (reservation_id : String)
  | crash
deriving Repr, DecidableEq

/-- HTTP status of a /reserve response (none on crash: no response is sent). -/
def ReserveResp.status : ReserveResp → Option Nat
  | .badRequest _ => some 400
  | .dbError _ => some 500
  | .conflict _ _ => some 409
  | .notFound _ => some 404
  | .success _ => some 200
  | .crash => none

def reserveMissingMsg : String :=
  "Missing/invalid fields. Required: restaurant, date, service, party, customer_name, customer_phone"

/-- Results the database would return to the POST /reserve handler at each of
its call sites. -/
structure ReserveEnv where
  checkAvail : Except String (List Avail) := .ok []
  restaurantsErr : Option String := none
  restaurants : List (String × String) := []
  insertRes : Except String (List String) := .ok []

/-- The `avail?.reason || "NOT_AVAILABLE"` expression (falsy reason falls back). -/
def reasonOrDefault : Option Avail → String
  | some av =>
      match av.reason with
      | some r => if r == "" then "NOT_AVAILABLE" else r
      | none => "NOT_AVAILABLE"
  | none => "NOT_AVAILABLE"

/-- The POST /reserve handler of src/index.js.  Returns the response, the
remote-procedure calls made, and the reservation rows actually inserted. -/
def postReserve (env : ReserveEnv) (b : ReserveBody) :
    ReserveResp × List RpcCall × List ReservationRow :=
  let partyInt := jsParseIntOpt b.party
  if !truthy b.restaurant || !truthy b.date || !truthy b.service || partyInt.isNone
      || !truthy b.customer_name || !truthy b.customer_phone then
    (.badRequest reserveMissingMsg, [], [])
  else
    let call := RpcCall.checkAvailability b.restaurant b.date b.service partyInt
    match env.checkAvail with
    | .error m => (.dbError m, [call], [])
    | .ok availData =>
      let avail := availData.head?
      if !(avail.map Avail.ok == some true) then
        (.conflict (reasonOrDefault avail) avail, [call], [])
      else
        match env.restaurantsErr with
        | some m => (.dbError m, [call], [])
        | none =>
          match ((env.restaurants.filter fun rc => rc.1 == b.restaurant.getD "").map Prod.snd).take 1 with
          | [] => (.notFound "Unknown restaurant code", [call], [])
          | restaurantId :: _ =>
            let row : ReservationRow :=
              { restaurant_id := restaurantId,
                customer_name := b.customer_name.getD "",
                customer_phone := b.customer_phone.getD "",
                party_size := partyInt.getD 0,
                service_date := b.date.getD "",
                service := b.service.getD "",
                status := "CONFIRMED" }
            match env.insertRes with
            | .error m => (.dbError m, [call], [])
            | .ok [] => (.crash, [call], [row])
            | .ok (iid :: _) => (.success iid, [call], [row])

/-! ## POST /cancel -/

/-- Response of POST /cancel. -/
inductive CancelResp
  | badRequest (msg : String)
  | dbError (msg : String)
  | notFound (msg : String)
  | success (id status : String)
deriving Repr, DecidableEq

/-- HTTP status of a /cancel response. -/
def CancelResp.status : CancelResp → Nat
  | .badRequest _ => 400
  | .dbError _ => 500
  | .notFound _ => 404
  | .success _ _ => 200

/-- The POST /cancel handler of src/index.js over a reservations table modelled
as a list of (id, status) pairs.  `updateErr` injects a database error.
Returns the response and the table after the request. -/
def postCancel (updateErr : Option String) (db : List (String × String))
    (reservation_id : Option String) : CancelResp × List (String × String) :=
  if !truthy reservation_id then
    (.badRequest "Missing reservation_id", db)
  else
    match updateErr with
    | some m => (.dbError m, db)
    | none =>
      let rid := reservation_id.getD ""
      let db2 := db.map fun r => if r.1 == rid then (r.1, "CANCELLED") else r
      match db2.filter fun r => r.1 == rid with
      | [] => (.notFound "Reservation not found", db2)
      | r0 :: _ => (.success r0.1 r0.2, db2)

/-! ## GET /webhook (verification handshake) -/

/-- The GET /webhook handler of src/index.js: status 200 echoing the
`hub.challenge` value when `hub.mode` is "subscribe" and `hub.verify_token`
equals the configured WHATSAPP_VERIFY_TOKEN, else status 403 (JS `===` on
possibly-undefined values is `Option` equality). -/
def getWebhookVerify (expectedToken mode token challenge : Option String) :
    Nat × Option String :=
  if mode == some "subscribe" && token == expectedToken then (200, challenge)
  else (403, none)

/-! ## POST /webhook: the conversational state machine

A `chat_sessions` row (wa_id PK, state, restaurant_code, party_size,
service_date, service, updated_at).  Upsert payloads are modelled as
key-value lists mirroring the object literals the source passes to
`upsertSession`; `upsertSession` wraps a patch into
`\x7b wa_id, ...patch, updated_at \x7d`. -/

/-- A `chat_sessions` row (the `updated_at` column is carried only inside
upsert payloads, no handler branches on it). -/
structure Session where
  state : String
  restaurant_code : Option String := none
  party_size : Option Int := none
  service_date : Option String := none
  service : Option String := none
deriving Repr, DecidableEq

/-- A JSON-ish field value inside an upsert / insert payload. -/
inductive JVal
  | s (v : String)
  | i (n : Int)
  | null
deriving Repr, DecidableEq

/-- A key-value payload, mirroring a JS object literal. -/
abbrev Patch := List (String × JVal)

/-- A freshly created row before its first patch is applied (columns null). -/
def emptySession : Session := { state := "" }

/-- Apply one payload field to a session row; unknown keys (wa_id,
updated_at) leave the modelled columns unchanged. -/
def applyField (sess : Session) : String × JVal → Session
  | ("state", .s v) => { sess with state := v }
  | ("restaurant_code", .s v) => { sess with restaurant_code := some v }
  | ("restaurant_code", .null) => { sess with restaurant_code := none }
  | ("party_size", .i n) => { sess with party_size := some n }
  | ("party_size", .null) => { sess with party_size := none }
  | ("service_date", .s v) => { sess with service_date := some v }
  | ("service_date", .null) => { sess with service_date := none }
  | ("service", .s v) => { sess with service := some v }
  | ("service", .null) => { sess with service := none }
  | _ => sess

/-- Apply a whole payload, left to right (later keys win, as in SQL SET). -/
def applyPayload (sess : Session) (p : Patch) : Session :=
  p.foldl applyField sess

/-- The payload `upsertSession` sends: `\x7b wa_id, ...patch, updated_at \x7d`. -/
def upsertPayload (wa : String) (patch : Patch) (now : String) : Patch :=
  ("wa_id", .s wa) :: patch ++ [("updated_at", .s now)]

/-- The patch `resetSession` passes to `upsertSession`. -/
def resetPatch : Patch :=
  [("state", .s "IDLE"), ("restaurant_code", .null), ("party_size", .null),
   ("service_date", .null), ("service", .null)]

/-- An observable effect of one POST /webhook request, in program order. -/
inductive Eff
  | upsert (wa : String) (patch : Patch)
  | rpc (c : RpcCall)
  | insertRow (fields : Patch)
  | cancelUpdate (id : String)
  | send (dst msg : String)
deriving Repr, DecidableEq

/-- Trace of the effects a POST /webhook request performed.  Each recorded
upsert carries the state of the row just before the write (empty string when
the row did not exist) and the full payload written. -/
structure Trace where
  upserts : List (String × Patch) := []
  rpcs : List RpcCall := []
  inserts : List Patch := []
  cancels : List String := []
  sends : List (String × String) := []
deriving Repr, DecidableEq

/-- Results the database client / remote procedures / WhatsApp API would
return to the POST /webhook handler at each call site; `upsertFail k` makes
the k-th upsert of the request throw, `getSessionErr` makes `getSession`
throw (both are caught by the handler's try/catch). -/
structure WebhookEnv where
  sessionRow : Option Session := none
  getSessionErr : Bool := false
  upsertFail : Nat → Bool := fun _ => false
  sendFail : Bool := false
  checkAvail : Except Unit (List Avail) := .ok []
  restaurantRows : Except Unit (List String) := .ok []
  insertRes : Except Unit (List String) := .ok []
  suggestAlts : Except Unit (List AltSlot) := .ok []
  cancelRes : Except Unit (List (String × String)) := .ok []

/-- State of an optional row ("" when absent). -/
def stateOfRow : Option Session → String
  | some s => s.state
  | none => ""

/-- Render an optional string the way a JS template literal renders null. -/
def showOptStr : Option String → String
  | some v => v
  | none => "null"

/-- Render an optional integer the way a JS template literal renders null. -/
def showOptInt : Option Int → String
  | some k => toString k
  | none => "null"

/-- `restaurantLabel` applied to a possibly null code (JS returns the code,
so null renders as "null"). -/
def restaurantLabelOpt : Option String → String
  | some c => restaurantLabel c
  | none => "null"

/-- Null-tolerant string payload value. -/
def jvalOfOptStr : Option String → JVal
  | some v => .s v
  | none => .null

/-- Null-tolerant integer payload value. -/
def jvalOfOptInt : Option Int → JVal
  | some k => .i k
  | none => .null

def invalidQtyText : String :=
  "❌ Cantidad inválida.\n\nRespondé con un número entre 1 y 50."

def altPickInvalidText : String :=
  "Respondé con 1, 2 o 3 para elegir una alternativa (o *menu*)."

def altFailText : String :=
  "⚠️ No pude tomar esa alternativa.\n\nEscribí *menu* para intentar de nuevo."

/-- The IDLE branch of the state machine. -/
def idleStep (wa n : String) : List Eff × String :=
  if n == "1" || n == "reservar" then
    ([.upsert wa [("state", .s "ASK_RESTAURANT")]],
     "📍 Elegí el restaurante:\n\n1) deliclub\n2) brodo-pasta\n3) brodo-pizza\n\nRespondé con 1, 2 o 3.")
  else if n == "2" || n == "cancelar" then
    ([.upsert wa [("state", .s "ASK_CANCEL_ID")]],
     "❌ Cancelar reserva\n\nEnviame el *código de reserva* (UUID) que te dimos al confirmar.\nEjemplo: f15db596-52b3-4bf7-a040-ad3d51e6e2db\n\nTip: escribí *menu* para volver.")
  else if n == "3" || n == "locales" || n == "horarios" then
    ([], localsText)
  else
    ([], MENU_TEXT)

/-- Restaurant selection parsing of the ASK_RESTAURANT branch. -/
def restaurantCodeOf (n : String) : Option String :=
  if n == "1" || n == "deliclub" then some "deliclub"
  else if n == "2" || n == "brodo-pasta" || n == "pasta" then some "brodo-pasta"
  else if n == "3" || n == "brodo-pizza" || n == "pizza" then some "brodo-pizza"
  else none

/-- The ASK_RESTAURANT branch of the state machine. -/
def askRestaurantStep (wa n : String) : List Eff × String :=
  match restaurantCodeOf n with
  | none =>
    ([], "No entendí.\n\nRespondé con 1, 2 o 3\n(o escribí deliclub / brodo-pasta / brodo-pizza).")
  | some code =>
    ([.upsert wa [("state", .s "ASK_PARTY_SIZE"), ("restaurant_code", .s code),
        ("party_size", .null), ("service_date", .null), ("service", .null)]],
     "✅ Perfecto. Elegiste *" ++ restaurantLabel code ++
     "*.\n\n👥 ¿Para cuántas personas es la reserva?\nRespondé con un número (ej: 2, 4, 6).")

/-- The ASK_PARTY_SIZE branch of the state machine. -/
def askPartySizeStep (wa n : String) : List Eff × String :=
  match jsParseInt n with
  | none => ([], invalidQtyText)
  | some k =>
    if k < 1 || 50 < k then ([], invalidQtyText)
    else
      ([.upsert wa [("state", .s "ASK_DATE"), ("party_size", .i k)]],
       "👥 Perfecto, " ++ toString k ++
       " personas.\n\n📅 ¿Para qué fecha es la reserva?\nRespondé con formato YYYY-MM-DD (ej: 2026-01-25).")

/-- The ASK_DATE branch of the state machine. -/
def askDateStep (wa n : String) : List Eff × String :=
  if !isISODate n then
    ([], "❌ Formato de fecha inválido.\n\nUsá el formato YYYY-MM-DD (ej: 2026-01-25).")
  else
    ([.upsert wa [("state", .s "ASK_SERVICE"), ("service_date", .s n)]],
     "🍽️ ¿En qué servicio?\n\n1️⃣ Lunch\n2️⃣ Dinner\n\nRespondé con 1 o 2.")

/-- Service selection parsing of the ASK_SERVICE branch. -/
def serviceCodeOf (n : String) : Option String :=
  if n == "1" || n == "lunch" then some "LUNCH"
  else if n == "2" || n == "dinner" then some "DINNER"
  else none

/-- The ASK_SERVICE branch of the state machine (the confirmation reply reads
the row returned by the upsert, i.e. the merged row). -/
def askServiceStep (wa n : String) (row : Session) : List Eff × String :=
  match serviceCodeOf n with
  | none => ([], "❌ Respondé con 1 (Lunch) o 2 (Dinner).")
  | some svc =>
    let patch : Patch := [("state", .s "CONFIRM_RESERVATION"), ("service", .s svc)]
    let merged := applyPayload row patch
    ([.upsert wa patch],
     "✅ Confirmación\n\nRestaurante: *" ++ restaurantLabelOpt merged.restaurant_code ++
     "*\nPersonas: *" ++ showOptInt merged.party_size ++
     "*\nFecha: *" ++ showOptStr merged.service_date ++
     "*\nServicio: *" ++ (if svc == "LUNCH" then "Lunch" else "Dinner") ++
     "*\n\nRespondé:\n1️⃣ Confirmar\n2️⃣ Cambiar fecha\n3️⃣ Cambiar servicio\n4️⃣ Cancelar")

/-- The CONFIRM_RESERVATION branch of the state machine. -/
def confirmStep (env : WebhookEnv) (wa n : String) (row : Session) : List Eff × String :=
  if n == "4" || n == "cancelar" then
    ([.upsert wa resetPatch], "Listo ✅ Cancelé el proceso.\n\n" ++ MENU_TEXT)
  else if n == "2" then
    ([.upsert wa [("state", .s "ASK_DATE")]],
     "📅 Ok. Enviame la nueva fecha en formato YYYY-MM-DD (ej: 2026-01-25).")
  else if n == "3" then
    ([.upsert wa [("state", .s "ASK_SERVICE")]],
     "🍽️ Ok. Elegí el servicio:\n\n1️⃣ Lunch\n2️⃣ Dinner\n\nRespondé con 1 o 2.")
  else if n == "1" || n == "confirmar" then
    let call := RpcCall.checkAvailability row.restaurant_code row.service_date
      row.service row.party_size
    match env.checkAvail with
    | .error _ =>
      ([.rpc call], "⚠️ Error interno validando disponibilidad. Probá de nuevo con *menu*.")
    | .ok availData =>
      if availData.head?.map Avail.ok == some true then
        match env.restaurantRows with
        | .error _ =>
          ([.rpc call], "⚠️ No pude identificar el restaurante. Probá con *menu*.")
        | .ok [] =>
          ([.rpc call], "⚠️ No pude identificar el restaurante. Probá con *menu*.")
        | .ok (restaurantId :: _) =>
          let insFields : Patch :=
            [("restaurant_id", .s restaurantId), ("customer_name", .s "WhatsApp User"),
             ("customer_phone", .s wa), ("party_size", jvalOfOptInt row.party_size),
             ("service_date", jvalOfOptStr row.service_date),
             ("service", jvalOfOptStr row.service), ("status", .s "CONFIRMED")]
          match env.insertRes with
          | .error _ =>
            ([.rpc call], "⚠️ No pude crear la reserva. Probá de nuevo con *menu*.")
          | .ok [] =>
            ([.rpc call, .insertRow insFields],
             "⚠️ No pude crear la reserva. Probá de nuevo con *menu*.")
          | .ok (rid :: _) =>
            ([.rpc call, .insertRow insFields, .upsert wa resetPatch],
             "🎉 ¡Reserva confirmada!\n\nRestaurante: *" ++
             restaurantLabelOpt row.restaurant_code ++
             "*\nPersonas: *" ++ showOptInt row.party_size ++
             "*\nFecha: *" ++ showOptStr row.service_date ++
             "*\nServicio: *" ++ (if row.service == some "LUNCH" then "Lunch" else "Dinner") ++
             "*\n\n📌 Código de reserva:\n" ++ rid ++
             "\n\nPara cancelar más tarde, elegí 2 en el menú.\n\n" ++ MENU_TEXT)
      else
        let altCall := RpcCall.suggestAlternatives row.restaurant_code row.service_date
          row.service row.party_size (some 14)
        match env.suggestAlts with
        | .error _ =>
          ([.rpc call, .rpc altCall, .upsert wa resetPatch],
           "❌ No hay disponibilidad y no pude calcular alternativas.\n\nEscribí *menu* para intentar de nuevo.")
        | .ok alts =>
          ([.rpc call, .rpc altCall, .upsert wa [("state", .s "ASK_ALT_PICK")]],
           "❌ No hay disponibilidad para ese horario.\n\nTe propongo alternativas:\n" ++
           formatAlternatives alts ++
           "\n\nRespondé con 1, 2 o 3 para elegir una alternativa.\nO escribí *menu* para empezar de nuevo.")
  else
    ([], "Respondé con 1, 2, 3 o 4.")

/-- The ASK_ALT_PICK branch of the state machine. -/
def askAltPickStep (env : WebhookEnv) (wa n : String) (row : Session) : List Eff × String :=
  match jsParseInt n with
  | none => ([], altPickInvalidText)
  | some k =>
    if k < 1 || 3 < k then ([], altPickInvalidText)
    else
      let altCall := RpcCall.suggestAlternatives row.restaurant_code row.service_date
        row.service row.party_size (some 14)
      match env.suggestAlts with
      | .error _ => ([.rpc altCall, .upsert wa resetPatch], altFailText)
      | .ok alts =>
        match alts.get? (k - 1).toNat with
        | none => ([.rpc altCall, .upsert wa resetPatch], altFailText)
        | some chosen =>
          ([.rpc altCall, .upsert wa [("state", .s "CONFIRM_RESERVATION"),
              ("service_date", .s chosen.service_date), ("service", .s chosen.service)]],
           "✅ Elegiste alternativa:\n\nFecha: *" ++ chosen.service_date ++
           "*\nServicio: *" ++ (if chosen.service == "LUNCH" then "Lunch" else "Dinner") ++
           "*\n\nRespondé 1️⃣ para *Confirmar* o *menu* para cancelar.")

/-- The ASK_CANCEL_ID branch of the state machine (the reservations update and
the session reset both happen before the reply is chosen). -/
def askCancelIdStep (env : WebhookEnv) (wa n : String) : List Eff × String :=
  if !isUUID n then
    ([], "❌ Ese código no parece válido.\n\nPegá el código completo (UUID) tal cual te llegó.\nTip: escribí *menu* para volver.")
  else
    match env.cancelRes with
    | .error _ =>
      ([.cancelUpdate n, .upsert wa resetPatch],
       "⚠️ Error cancelando la reserva. Probá de nuevo con *menu*.")
    | .ok [] =>
      ([.cancelUpdate n, .upsert wa resetPatch],
       "No encontré una reserva con ese código.\n\n" ++ MENU_TEXT)
    | .ok (r0 :: _) =>
      ([.cancelUpdate n, .upsert wa resetPatch],
       "✅ Reserva cancelada.\n\nCódigo: " ++ r0.1 ++ "\n\n" ++ MENU_TEXT)

/-- The fallback branch for an unrecognised stored state. -/
def unknownStateStep (wa : String) : List Eff × String :=
  ([.upsert wa resetPatch], "Reinicié la conversación por seguridad.\n\n" ++ MENU_TEXT)

/-- The `if session.state === ... else if ...` dispatcher. -/
def dispatchStep (env : WebhookEnv) (wa n : String) (row : Session) : List Eff × String :=
  if row.state == "IDLE" then idleStep wa n
  else if row.state == "ASK_RESTAURANT" then askRestaurantStep wa n
  else if row.state == "ASK_PARTY_SIZE" then askPartySizeStep wa n
  else if row.state == "ASK_DATE" then askDateStep wa n
  else if row.state == "ASK_SERVICE" then askServiceStep wa n row
  else if row.state == "CONFIRM_RESERVATION" then confirmStep env wa n row
  else if row.state == "ASK_ALT_PICK" then askAltPickStep env wa n row
  else if row.state == "ASK_CANCEL_ID" then askCancelIdStep env wa n
  else unknownStateStep wa

/-- The inbound webhook body, reduced to the two values the handler extracts
(`body?.entry?.[0]?.changes?.[0]?.value?.messages?.[0]`, its `text.body` and
`from`). -/
structure WebhookBody where
  text : Option String := none
  sender : Option String := none

/-- The `if (!text || !from)` guard: both values must be truthy. -/
def extractMsg (b : WebhookBody) : Option (String × String) :=
  match b.text, b.sender with
  | some t, some f => if t == "" || f == "" then none else some (t, f)
  | _, _ => none

/-- The global commands checked before the state dispatch. -/
def isGlobalCmd (n : String) : Bool :=
  n == "menu" || n == "hola" || n == "hi" || n == "reiniciar" || n == "reset"

/-- The effect list of one POST /webhook request, in program order.  Global
commands reset the session before `getSession` is ever consulted; a missing
row is created with state IDLE before the dispatch runs. -/
def webhookEffs (env : WebhookEnv) (b : WebhookBody) : List Eff :=
  match extractMsg b with
  | none => []
  | some (text, wa) =>
    let n := normalizeText text
    if n == "menu" || n == "hola" || n == "hi" then
      [.upsert wa resetPatch, .send wa MENU_TEXT]
    else if n == "reiniciar" || n == "reset" then
      [.upsert wa resetPatch, .send wa ("Listo ✅ Reinicié la conversación.\n\n" ++ MENU_TEXT)]
    else if env.getSessionErr then []
    else
      match env.sessionRow with
      | some row =>
        let st := dispatchStep env wa n row
        st.1 ++ [.send wa st.2]
      | none =>
        let row := applyPayload emptySession [("state", JVal.s "IDLE")]
        let st := dispatchStep env wa n row
        .upsert wa [("state", JVal.s "IDLE")] :: (st.1 ++ [.send wa st.2])

/-- Execute an effect list: record effects in order, applying each upsert to
the threaded row.  A failing upsert or send throws (second component true)
and drops everything after it, like the handler's try/catch. -/
def runEffs (env : WebhookEnv) (now : String) :
    Option Session → Nat → List Eff → Trace × Bool
  | _, _, [] => ({}, false)
  | row, k, Eff.upsert wa patch :: rest =>
    if env.upsertFail k then ({}, true)
    else
      let payload := upsertPayload wa patch now
      let r := runEffs env now (some (applyPayload (row.getD emptySession) payload)) (k + 1) rest
      ({ r.1 with upserts := (stateOfRow row, payload) :: r.1.upserts }, r.2)
  | row, k, Eff.rpc c :: rest =>
    let r := runEffs env now row k rest
    ({ r.1 with rpcs := c :: r.1.rpcs }, r.2)
  | row, k, Eff.insertRow f :: rest =>
    let r := runEffs env now row k rest
    ({ r.1 with inserts := f :: r.1.inserts }, r.2)
  | row, k, Eff.cancelUpdate i :: rest =>
    let r := runEffs env now row k rest
    ({ r.1 with cancels := i :: r.1.cancels }, r.2)
  | row, k, Eff.send dst msg :: rest =>
    if env.sendFail then ({ sends := [(dst, msg)] }, true)
    else
      let r := runEffs env now row k rest
      ({ r.1 with sends := (dst, msg) :: r.1.sends }, r.2)

/-- The whole POST /webhook handler: HTTP status plus the trace of effects.
Both the normal path and the catch path reply 200. -/
def postWebhook (env : WebhookEnv) (b : WebhookBody) (now : String) : Nat × Trace :=
  let r := runEffs env now env.sessionRow 0 (webhookEffs env b)
  if r.2 then (200, r.1) else (200, r.1)

/-- The wa_id the handler works with ("" when the request carries no message;
no session is touched in that case). -/
def senderOf (b : WebhookBody) : String :=
  match extractMsg b with
  | some (_, f) => f
  | none => ""

/-! ## Replay of the session writes -/

/-- The (pre-state, payload) pairs an effect list would write when no call
fails, threading the row through the merges exactly as `runEffs` does. -/
def replayUpserts (now : String) : Option Session → List Eff → List (String × Patch)
  | _, [] => []
  | row, Eff.upsert wa patch :: rest =>
    let payload := upsertPayload wa patch now
    (stateOfRow row, payload) ::
      replayUpserts now (some (applyPayload (row.getD emptySession) payload)) rest
  | row, Eff.rpc _ :: rest => replayUpserts now row rest
  | row, Eff.insertRow _ :: rest => replayUpserts now row rest
  | row, Eff.cancelUpdate _ :: rest => replayUpserts now row rest
  | row, Eff.send _ _ :: rest => replayUpserts now row rest

/-- The row after replaying an effect list without failures. -/
def replayRow (now : String) : Option Session → List Eff → Option Session
  | row, [] => row
  | row, Eff.upsert wa patch :: rest =>
    replayRow now (some (applyPayload (row.getD emptySession) (upsertPayload wa patch now))) rest
  | row, Eff.rpc _ :: rest => replayRow now row rest
  | row, Eff.insertRow _ :: rest => replayRow now row rest
  | row, Eff.cancelUpdate _ :: rest => replayRow now row rest
  | row, Eff.send _ _ :: rest => replayRow now row rest

/-! ## The state-machine invariant -/

/-- The eight states of the conversational state machine. -/
def sessionStates : List String :=
  ["IDLE", "ASK_RESTAURANT", "ASK_PARTY_SIZE", "ASK_DATE", "ASK_SERVICE",
   "CONFIRM_RESERVATION", "ASK_ALT_PICK", "ASK_CANCEL_ID"]

/-- The five mutable session columns of the spec's session record. -/
def sessionFieldKeys : List String :=
  ["state", "restaurant_code", "party_size", "service_date", "service"]

/-- The state value carried by an upsert payload, if any. -/
def payloadState (p : Patch) : Option String :=
  match p.lookup "state" with
  | some (JVal.s v) => some v
  | _ => none

/-- Every key of the payload is a session column, the wa_id key, or the
updated_at stamp. -/
def payloadKeysOk (p : Patch) : Bool :=
  p.all fun kv => sessionFieldKeys.contains kv.1 || kv.1 == "wa_id" || kv.1 == "updated_at"

/-- The transition relation the code actually implements, from the state a
row held before a write to the state written: any state (including a missing
row, pre = "") may be reset to IDLE, and the remaining writes are the listed
forward edges. -/
def codeEdge (pre nxt : String) : Bool :=
  nxt == "IDLE" ||
  [("IDLE", "ASK_RESTAURANT"), ("IDLE", "ASK_CANCEL_ID"),
   ("ASK_RESTAURANT", "ASK_PARTY_SIZE"), ("ASK_PARTY_SIZE", "ASK_DATE"),
   ("ASK_DATE", "ASK_SERVICE"), ("ASK_SERVICE", "CONFIRM_RESERVATION"),
   ("CONFIRM_RESERVATION", "ASK_DATE"), ("CONFIRM_RESERVATION", "ASK_SERVICE"),
   ("CONFIRM_RESERVATION", "ASK_ALT_PICK"),
   ("ASK_ALT_PICK", "CONFIRM_RESERVATION")].contains (pre, nxt)

/-- Modelled from the spec: the edges of the flow stated by the spec sentence
"IDLE → ASK_RESTAURANT → ASK_PARTY_SIZE → ASK_DATE → ASK_SERVICE →
CONFIRM_RESERVATION → ASK_ALT_PICK / ASK_CANCEL_ID", read as the chain of
arrows with the final fork. -/
def specFlowEdge (a b : String) : Bool :=
  [("IDLE", "ASK_RESTAURANT"), ("ASK_RESTAURANT", "ASK_PARTY_SIZE"),
   ("ASK_PARTY_SIZE", "ASK_DATE"), ("ASK_DATE", "ASK_SERVICE"),
   ("ASK_SERVICE", "CONFIRM_RESERVATION"),
   ("CONFIRM_RESERVATION", "ASK_ALT_PICK"),
   ("CONFIRM_RESERVATION", "ASK_CANCEL_ID")].contains (a, b)

/-- Well-formedness of one recorded session write: only session columns plus
wa_id/updated_at are touched, the row is keyed by the sender's wa_id, and any
state written is one of the eight machine states, reached along an edge the
code implements. -/
def UpsertOk (wa : String) (e : String × Patch) : Prop :=
  payloadKeysOk e.2 = true ∧
  e.2.lookup "wa_id" = some (JVal.s wa) ∧
  ∀ s, payloadState e.2 = some s → s ∈ sessionStates ∧ codeEdge e.1 s = true

/-- Resetting to IDLE is an edge from every pre-state. -/
theorem codeEdge_idle (pre : String) : codeEdge pre "IDLE" = true := by
  simp [codeEdge]

/-- Every session write the executor records also appears in the failure-free
replay of the same effect list. -/
theorem runEffs_upserts_sub (env : WebhookEnv) (now : String) :
    ∀ (effs : List Eff) (row : Option Session) (k : Nat) (e : String × Patch),
      e ∈ (runEffs env now row k effs).1.upserts → e ∈ replayUpserts now row effs := by
  intro effs
  induction effs with
  | nil => intro row k e h; simp [runEffs] at h
  | cons hd tl ih =>
    intro row k e h
    cases hd with
    | upsert wa patch =>
      rw [runEffs] at h
      by_cases hf : env.upsertFail k = true
      · simp [hf] at h
      · simp only [hf, Bool.false_eq_true, if_false] at h
        simp only [replayUpserts]
        rcases List.mem_cons.mp h with h1 | h2
        · exact List.mem_cons.mpr (Or.inl h1)
        · exact List.mem_cons.mpr (Or.inr (ih _ _ _ h2))
    | rpc c =>
      rw [runEffs] at h
      simp only [replayUpserts]
      exact ih _ _ _ h
    | insertRow f =>
      rw [runEffs] at h
      simp only [replayUpserts]
      exact ih _ _ _ h
    | cancelUpdate i =>
      rw [runEffs] at h
      simp only [replayUpserts]
      exact ih _ _ _ h
    | send dst msg =>
      rw [runEffs] at h
      simp only [replayUpserts]
      by_cases hf : env.sendFail = true
      · simp [hf] at h
      · simp only [hf, Bool.false_eq_true, if_false] at h
        exact ih _ _ _ h

/-- Replay distributes over concatenation of effect lists. -/
theorem replayUpserts_append (now : String) :
    ∀ (l1 l2 : List Eff) (row : Option Session),
      replayUpserts now row (l1 ++ l2) =
        replayUpserts now row l1 ++ replayUpserts now (replayRow now row l1) l2 := by
  intro l1
  induction l1 with
  | nil => intro l2 row; simp [replayUpserts, replayRow]
  | cons hd tl ih =>
    intro l2 row
    cases hd <;> simp [replayUpserts, replayRow, ih]

/-- The wa_id key of an upsert payload. -/
theorem upsertPayload_lookup_wa (wa now : String) (patch : Patch) :
    (upsertPayload wa patch now).lookup "wa_id" = some (JVal.s wa) := rfl


/-- Packaging lemma for one recorded upsert: it suffices to check the key
discipline, the state value and the edge for the concrete payload. -/
theorem upsertOk_mk (wa now pre st : String) (patch : Patch)
    (hk : payloadKeysOk (upsertPayload wa patch now) = true)
    (hs : payloadState (upsertPayload wa patch now) = some st)
    (hmem : st ∈ sessionStates) (hedge : codeEdge pre st = true) :
    UpsertOk wa (pre, upsertPayload wa patch now) := by
  refine ⟨hk, upsertPayload_lookup_wa wa now patch, ?_⟩
  intro s hs2
  have h3 : some st = some s := Eq.trans hs.symm hs2
  cases h3
  exact ⟨hmem, hedge⟩

/-- Every write of the IDLE branch is well formed. -/
theorem idleStep_ok (wa n now : String) (row : Session) (h : row.state = "IDLE") :
    ∀ e ∈ replayUpserts now (some row) (idleStep wa n).1, UpsertOk wa e := by
  intro e he
  unfold idleStep at he
  split at he
  · simp only [replayUpserts, stateOfRow, List.mem_singleton] at he
    subst he
    exact upsertOk_mk wa now row.state "ASK_RESTAURANT" _ rfl rfl (by decide)
      (by rw [h]; decide)
  split at he
  · simp only [replayUpserts, stateOfRow, List.mem_singleton] at he
    subst he
    exact upsertOk_mk wa now row.state "ASK_CANCEL_ID" _ rfl rfl (by decide)
      (by rw [h]; decide)
  split at he
  · simp [replayUpserts] at he
  · simp [replayUpserts] at he

/-- Every write of the ASK_RESTAURANT branch is well formed. -/
theorem askRestaurantStep_ok (wa n now : String) (row : Session)
    (h : row.state = "ASK_RESTAURANT") :
    ∀ e ∈ replayUpserts now (some row) (askRestaurantStep wa n).1, UpsertOk wa e := by
  intro e he
  unfold askRestaurantStep at he
  split at he
  · simp [replayUpserts] at he
  · simp only [replayUpserts, stateOfRow, List.mem_singleton] at he
    subst he
    exact upsertOk_mk wa now row.state "ASK_PARTY_SIZE" _ rfl rfl (by decide)
      (by rw [h]; decide)

/-- Every write of the ASK_PARTY_SIZE branch is well formed. -/
theorem askPartySizeStep_ok (wa n now : String) (row : Session)
    (h : row.state = "ASK_PARTY_SIZE") :
    ∀ e ∈ replayUpserts now (some row) (askPartySizeStep wa n).1, UpsertOk wa e := by
  intro e he
  unfold askPartySizeStep at he
  split at he
  · simp [replayUpserts] at he
  · split at he
    · simp [replayUpserts] at he
    · simp only [replayUpserts, stateOfRow, List.mem_singleton] at he
      subst he
      exact upsertOk_mk wa now row.state "ASK_DATE" _ rfl rfl (by decide)
        (by rw [h]; decide)

/-- Every write of the ASK_DATE branch is well formed. -/
theorem askDateStep_ok (wa n now : String) (row : Session) (h : row.state = "ASK_DATE") :
    ∀ e ∈ replayUpserts now (some row) (askDateStep wa n).1, UpsertOk wa e := by
  intro e he
  unfold askDateStep at he
  split at he
  · simp [replayUpserts] at he
  · simp only [replayUpserts, stateOfRow, List.mem_singleton] at he
    subst he
    exact upsertOk_mk wa now row.state "ASK_SERVICE" _ rfl rfl (by decide)
      (by rw [h]; decide)

/-- Every write of the ASK_SERVICE branch is well formed. -/
theorem askServiceStep_ok (wa n now : String) (row : Session)
    (h : row.state = "ASK_SERVICE") :
    ∀ e ∈ replayUpserts now (some row) (askServiceStep wa n row).1, UpsertOk wa e := by
  intro e he
  unfold askServiceStep at he
  split at he
  · simp [replayUpserts] at he
  · simp only [replayUpserts, stateOfRow, List.mem_singleton] at he
    subst he
    exact upsertOk_mk wa now row.state "CONFIRM_RESERVATION" _ rfl rfl (by decide)
      (by rw [h]; decide)

/-- Every write of the CONFIRM_RESERVATION branch is well formed. -/
theorem confirmStep_ok (env : WebhookEnv) (wa n now : String) (row : Session)
    (h : row.state = "CONFIRM_RESERVATION") :
    ∀ e ∈ replayUpserts now (some row) (confirmStep env wa n row).1, UpsertOk wa e := by
  intro e he
  unfold confirmStep at he
  split at he
  · simp only [replayUpserts, stateOfRow, List.mem_singleton] at he
    subst he
    exact upsertOk_mk wa now row.state "IDLE" _ rfl rfl (by decide) (codeEdge_idle _)
  split at he
  · simp only [replayUpserts, stateOfRow, List.mem_singleton] at he
    subst he
    exact upsertOk_mk wa now row.state "ASK_DATE" _ rfl rfl (by decide)
      (by rw [h]; decide)
  split at he
  · simp only [replayUpserts, stateOfRow, List.mem_singleton] at he
    subst he
    exact upsertOk_mk wa now row.state "ASK_SERVICE" _ rfl rfl (by decide)
      (by rw [h]; decide)
  split at he
  · split at he
    · simp [replayUpserts] at he
    · split at he
      · split at he
        · simp [replayUpserts] at he
        · simp [replayUpserts] at he
        · split at he
          · simp [replayUpserts] at he
          · simp [replayUpserts] at he
          · simp only [replayUpserts, stateOfRow, List.mem_singleton] at he
            subst he
            exact upsertOk_mk wa now row.state "IDLE" _ rfl rfl (by decide)
              (codeEdge_idle _)
      · split at he
        · simp only [replayUpserts, stateOfRow, List.mem_singleton] at he
          subst he
          exact upsertOk_mk wa now row.state "IDLE" _ rfl rfl (by decide)
            (codeEdge_idle _)
        · simp only [replayUpserts, stateOfRow, List.mem_singleton] at he
          subst he
          exact upsertOk_mk wa now row.state "ASK_ALT_PICK" _ rfl rfl (by decide)
            (by rw [h]; decide)
  · simp [replayUpserts] at he

/-- Every write of the ASK_ALT_PICK branch is well formed. -/
theorem askAltPickStep_ok (env : WebhookEnv) (wa n now : String) (row : Session)
    (h : row.state = "ASK_ALT_PICK") :
    ∀ e ∈ replayUpserts now (some row) (askAltPickStep env wa n row).1, UpsertOk wa e := by
  intro e he
  unfold askAltPickStep at he
  split at he
  · simp [replayUpserts] at he
  · split at he
    · simp [replayUpserts] at he
    · split at he
      · simp only [replayUpserts, stateOfRow, List.mem_singleton] at he
        subst he
        exact upsertOk_mk wa now row.state "IDLE" _ rfl rfl (by decide) (codeEdge_idle _)
      · split at he
        · simp only [replayUpserts, stateOfRow, List.mem_singleton] at he
          subst he
          exact upsertOk_mk wa now row.state "IDLE" _ rfl rfl (by decide) (codeEdge_idle _)
        · simp only [replayUpserts, stateOfRow, List.mem_singleton] at he
          subst he
          exact upsertOk_mk wa now row.state "CONFIRM_RESERVATION" _ rfl rfl (by decide)
            (by rw [h]; decide)

/-- Every write of the ASK_CANCEL_ID branch is well formed. -/
theorem askCancelIdStep_ok (env : WebhookEnv) (wa n now : String) (row : Session) :
    ∀ e ∈ replayUpserts now (some row) (askCancelIdStep env wa n).1, UpsertOk wa e := by
  intro e he
  unfold askCancelIdStep at he
  split at he
  · simp [replayUpserts] at he
  · split at he
    · simp only [replayUpserts, stateOfRow, List.mem_singleton] at he
      subst he
      exact upsertOk_mk wa now row.state "IDLE" _ rfl rfl (by decide) (codeEdge_idle _)
    · simp only [replayUpserts, stateOfRow, List.mem_singleton] at he
      subst he
      exact upsertOk_mk wa now row.state "IDLE" _ rfl rfl (by decide) (codeEdge_idle _)
    · simp only [replayUpserts, stateOfRow, List.mem_singleton] at he
      subst he
      exact upsertOk_mk wa now row.state "IDLE" _ rfl rfl (by decide) (codeEdge_idle _)

/-- Every write of the unknown-state fallback is well formed. -/
theorem unknownStateStep_ok (wa now : String) (row : Session) :
    ∀ e ∈ replayUpserts now (some row) (unknownStateStep wa).1, UpsertOk wa e := by
  intro e he
  simp only [unknownStateStep, replayUpserts, stateOfRow, List.mem_singleton] at he
  subst he
  exact upsertOk_mk wa now row.state "IDLE" _ rfl rfl (by decide) (codeEdge_idle _)

/-- Every write of the state dispatcher is well formed. -/
theorem dispatchStep_ok (env : WebhookEnv) (wa n now : String) (row : Session) :
    ∀ e ∈ replayUpserts now (some row) (dispatchStep env wa n row).1, UpsertOk wa e := by
  intro e he
  unfold dispatchStep at he
  by_cases h1 : row.state = "IDLE"
  · rw [if_pos (by simp [h1])] at he
    exact idleStep_ok wa n now row h1 e he
  rw [if_neg (by simp [h1])] at he
  by_cases h2 : row.state = "ASK_RESTAURANT"
  · rw [if_pos (by simp [h2])] at he
    exact askRestaurantStep_ok wa n now row h2 e he
  rw [if_neg (by simp [h2])] at he
  by_cases h3 : row.state = "ASK_PARTY_SIZE"
  · rw [if_pos (by simp [h3])] at he
    exact askPartySizeStep_ok wa n now row h3 e he
  rw [if_neg (by simp [h3])] at he
  by_cases h4 : row.state = "ASK_DATE"
  · rw [if_pos (by simp [h4])] at he
    exact askDateStep_ok wa n now row h4 e he
  rw [if_neg (by simp [h4])] at he
  by_cases h5 : row.state = "ASK_SERVICE"
  · rw [if_pos (by simp [h5])] at he
    exact askServiceStep_ok wa n now row h5 e he
  rw [if_neg (by simp [h5])] at he
  by_cases h6 : row.state = "CONFIRM_RESERVATION"
  · rw [if_pos (by simp [h6])] at he
    exact confirmStep_ok env wa n now row h6 e he
  rw [if_neg (by simp [h6])] at he
  by_cases h7 : row.state = "ASK_ALT_PICK"
  · rw [if_pos (by simp [h7])] at he
    exact askAltPickStep_ok env wa n now row h7 e he
  rw [if_neg (by simp [h7])] at he
  by_cases h8 : row.state = "ASK_CANCEL_ID"
  · rw [if_pos (by simp [h8])] at he
    exact askCancelIdStep_ok env wa n now row e he
  rw [if_neg (by simp [h8])] at he
  exact unknownStateStep_ok wa now row e he

/-- The trace component of the handler is the executor's trace. -/
theorem postWebhook_snd (env : WebhookEnv) (b : WebhookBody) (now : String) :
    (postWebhook env b now).2 = (runEffs env now env.sessionRow 0 (webhookEffs env b)).1 := by
  simp only [postWebhook, ite_self]

/-- Master soundness lemma: every session write any POST /webhook request
records is keyed by the sender, touches only the session columns (plus wa_id
and updated_at), and writes one of the eight states along an implemented
edge. -/
theorem webhook_upserts_ok (env : WebhookEnv) (b : WebhookBody) (now : String) :
    ∀ e ∈ (postWebhook env b now).2.upserts, UpsertOk (senderOf b) e := by
  intro e he
  rw [postWebhook_snd] at he
  have he2 : e ∈ replayUpserts now env.sessionRow (webhookEffs env b) :=
    runEffs_upserts_sub env now _ _ _ e he
  unfold webhookEffs at he2
  rcases hx : extractMsg b with _ | ⟨t, f⟩
  · simp only [hx, replayUpserts] at he2
    simp at he2
  simp only [hx] at he2
  have hsend : senderOf b = f := by simp [senderOf, hx]
  rw [hsend]
  split at he2
  · simp only [replayUpserts, List.mem_singleton] at he2
    subst he2
    exact upsertOk_mk f now (stateOfRow env.sessionRow) "IDLE" _ rfl rfl (by decide)
      (codeEdge_idle _)
  split at he2
  · simp only [replayUpserts, List.mem_singleton] at he2
    subst he2
    exact upsertOk_mk f now (stateOfRow env.sessionRow) "IDLE" _ rfl rfl (by decide)
      (codeEdge_idle _)
  split at he2
  · simp [replayUpserts] at he2
  rcases hrow : env.sessionRow with _ | row
  · simp only [hrow] at he2
    simp only [replayUpserts, List.mem_cons] at he2
    rcases he2 with he2 | he2
    · subst he2
      exact upsertOk_mk f now (stateOfRow none) "IDLE" _ rfl rfl (by decide)
        (codeEdge_idle _)
    · rw [replayUpserts_append] at he2
      rw [List.mem_append] at he2
      rcases he2 with he2 | he2
      · exact dispatchStep_ok env f (normalizeText t) now _ e he2
      · simp [replayUpserts] at he2
  · simp only [hrow] at he2
    rw [replayUpserts_append] at he2
    rw [List.mem_append] at he2
    rcases he2 with he2 | he2
    · exact dispatchStep_ok env f (normalizeText t) now row e he2
    · simp [replayUpserts] at he2


/-! ## Claims -/

/-- C1 (amended): every session state the POST /webhook handler writes back is
one of the eight machine states IDLE, ASK_RESTAURANT, ASK_PARTY_SIZE,
ASK_DATE, ASK_SERVICE, CONFIRM_RESERVATION, ASK_ALT_PICK, ASK_CANCEL_ID, and
every written transition is either a reset to IDLE (possible from any state)
or one of the forward edges the code implements — including IDLE →
ASK_CANCEL_ID and the backward edges CONFIRM_RESERVATION → ASK_DATE /
ASK_SERVICE and ASK_ALT_PICK → CONFIRM_RESERVATION, which are not part of the
spec's linear flow. -/
theorem C1_webhook_state_machine (env : WebhookEnv) (b : WebhookBody) (now : String) :
    ∀ e ∈ (postWebhook env b now).2.upserts, ∀ s, payloadState e.2 = some s →
      s ∈ sessionStates ∧ codeEdge e.1 s = true :=
  fun e he s hs => (webhook_upserts_ok env b now e he).2.2 s hs

/-- C1 witness: a user in state ASK_DATE sending a date advances the session
to ASK_SERVICE along an implemented edge. -/
theorem C1_webhook_state_machine_witness :
    "ASK_SERVICE" ∈ sessionStates ∧ codeEdge "ASK_DATE" "ASK_SERVICE" = true :=
  C1_webhook_state_machine
    { sessionRow := some { state := "ASK_DATE" } }
    { text := some "2026-01-25", sender := some "5491" } "T"
    ("ASK_DATE",
      [("wa_id", JVal.s "5491"), ("state", JVal.s "ASK_SERVICE"),
       ("service_date", JVal.s "2026-01-25"), ("updated_at", JVal.s "T")])
    (by decide) "ASK_SERVICE" rfl

/-- C1 counterexample: in state IDLE the message "2" writes state
ASK_CANCEL_ID, so the transition IDLE → ASK_CANCEL_ID happens, and it is not
an edge of the flow "IDLE → ASK_RESTAURANT → ... → CONFIRM_RESERVATION →
ASK_ALT_PICK / ASK_CANCEL_ID" stated by the spec. -/
theorem C1_counterexample :
    (postWebhook { sessionRow := some { state := "IDLE" } }
        { text := some "2", sender := some "549" } "T").2.upserts =
      [("IDLE", [("wa_id", JVal.s "549"), ("state", JVal.s "ASK_CANCEL_ID"),
        ("updated_at", JVal.s "T")])] ∧
    specFlowEdge "IDLE" "ASK_CANCEL_ID" = false :=
  ⟨by decide, by decide⟩

/-- C2: every POST /webhook request is answered with HTTP status 200, whether
or not it carries an inbound text message and whether or not any call the
handler makes throws (the executor's abort flag models the caught
exception). -/
theorem C2_webhook_always_200 (env : WebhookEnv) (b : WebhookBody) (now : String) :
    (postWebhook env b now).1 = 200 := by
  simp only [postWebhook, ite_self]

/-- C7 (amended): every session write of the POST /webhook handler goes
through an upsert keyed by the sender's wa_id whose payload touches only the
five session columns state, restaurant_code, party_size, service_date,
service — plus the wa_id key itself and an updated_at timestamp that
upsertSession stamps on every write (the claim's field list omits
updated_at, see the counterexample). -/
theorem C7_session_write_discipline (env : WebhookEnv) (b : WebhookBody) (now : String) :
    ∀ e ∈ (postWebhook env b now).2.upserts,
      payloadKeysOk e.2 = true ∧ e.2.lookup "wa_id" = some (JVal.s (senderOf b)) :=
  fun e he =>
    ⟨(webhook_upserts_ok env b now e he).1, (webhook_upserts_ok env b now e he).2.1⟩

/-- C7 witness: the write performed for a "menu" command is keyed by the
sender and touches only the allowed keys. -/
theorem C7_session_write_discipline_witness :
    payloadKeysOk
      [("wa_id", JVal.s "549"), ("state", JVal.s "IDLE"),
       ("restaurant_code", JVal.null), ("party_size", JVal.null),
       ("service_date", JVal.null), ("service", JVal.null),
       ("updated_at", JVal.s "T")] = true ∧
    List.lookup "wa_id"
      [("wa_id", JVal.s "549"), ("state", JVal.s "IDLE"),
       ("restaurant_code", JVal.null), ("party_size", JVal.null),
       ("service_date", JVal.null), ("service", JVal.null),
       ("updated_at", JVal.s "T")] = some (JVal.s "549") :=
  C7_session_write_discipline {} { text := some "menu", sender := some "549" } "T"
    ("",
      [("wa_id", JVal.s "549"), ("state", JVal.s "IDLE"),
       ("restaurant_code", JVal.null), ("party_size", JVal.null),
       ("service_date", JVal.null), ("service", JVal.null),
       ("updated_at", JVal.s "T")])
    (by decide)

/-- C7 counterexample: the payload the handler writes for a "menu" command
contains the key updated_at (and the wa_id key), which is a session field
outside the claimed set of mutable fields. -/
theorem C7_counterexample :
    ((postWebhook {} { text := some "menu", sender := some "549" } "T").2.upserts.map
      fun e => e.2.map Prod.fst) =
      [["wa_id", "state", "restaurant_code", "party_size", "service_date",
        "service", "updated_at"]] ∧
    "updated_at" ∉ sessionFieldKeys :=
  ⟨by decide, by decide⟩
/-- C9: in every session state, a message normalizing to one of the five
global commands menu / hola / hi / reiniciar / reset writes exactly one
session record: the reset to IDLE with restaurant_code, party_size,
service_date and service all null, keyed by the sender — and no remote
procedure, reservation insert or cancellation runs. -/
theorem C9_global_commands_reset (env : WebhookEnv) (b : WebhookBody) (now t f : String)
    (hx : extractMsg b = some (t, f))
    (hg : isGlobalCmd (normalizeText t) = true)
    (hup : env.upsertFail 0 = false) :
    (postWebhook env b now).2.upserts =
      [(stateOfRow env.sessionRow, upsertPayload f resetPatch now)] ∧
    (postWebhook env b now).2.rpcs = [] ∧
    (postWebhook env b now).2.inserts = [] ∧
    (postWebhook env b now).2.cancels = [] := by
  have heffs : ∃ msg, webhookEffs env b = [.upsert f resetPatch, .send f msg] := by
    unfold webhookEffs
    simp only [hx]
    by_cases h1 : (normalizeText t == "menu" || normalizeText t == "hola" ||
        normalizeText t == "hi") = true
    · rw [if_pos h1]
      exact ⟨MENU_TEXT, rfl⟩
    · rw [if_neg h1]
      have h2 : (normalizeText t == "reiniciar" || normalizeText t == "reset") = true := by
        unfold isGlobalCmd at hg
        simp only [Bool.or_eq_true] at hg h1 ⊢
        tauto
      rw [if_pos h2]
      exact ⟨_, rfl⟩
  rcases heffs with ⟨msg, heffs⟩
  rw [postWebhook_snd, heffs]
  by_cases hsf : env.sendFail = true <;>
    simp [runEffs, hup, hsf]

/-- C9 witness: a user parked in state ASK_DATE who sends "  RESET  " gets the
single reset write and no remote calls. -/
theorem C9_global_commands_reset_witness :
    (postWebhook { sessionRow := some { state := "ASK_DATE", restaurant_code := some "deliclub" } }
        { text := some "  RESET  ", sender := some "549" } "T").2.upserts =
      [("ASK_DATE", upsertPayload "549" resetPatch "T")] ∧
    (postWebhook { sessionRow := some { state := "ASK_DATE", restaurant_code := some "deliclub" } }
        { text := some "  RESET  ", sender := some "549" } "T").2.rpcs = [] ∧
    (postWebhook { sessionRow := some { state := "ASK_DATE", restaurant_code := some "deliclub" } }
        { text := some "  RESET  ", sender := some "549" } "T").2.inserts = [] ∧
    (postWebhook { sessionRow := some { state := "ASK_DATE", restaurant_code := some "deliclub" } }
        { text := some "  RESET  ", sender := some "549" } "T").2.cancels = [] :=
  C9_global_commands_reset _ _ "T" "  RESET  " "549" rfl (by decide) rfl
/-- C8 counterexample: in state ASK_PARTY_SIZE the message "menu" does not
parse to an integer, yet the session is not left unchanged and no
invalid-quantity prompt is sent — the global command resets the session to
IDLE and nulls restaurant_code, and replies with the menu. -/
theorem C8_counterexample :
    jsParseInt (normalizeText "menu") = none ∧
    (postWebhook
        { sessionRow := some { state := "ASK_PARTY_SIZE", restaurant_code := some "deliclub" } }
        { text := some "menu", sender := some "549" } "T").2.upserts =
      [("ASK_PARTY_SIZE", upsertPayload "549" resetPatch "T")] ∧
    (postWebhook
        { sessionRow := some { state := "ASK_PARTY_SIZE", restaurant_code := some "deliclub" } }
        { text := some "menu", sender := some "549" } "T").2.sends =
      [("549", MENU_TEXT)] :=
  ⟨rfl, by decide, by decide⟩

/-- C8 (amended): in state ASK_PARTY_SIZE, for every inbound message that is
not one of the global reset commands: if its normalized text `parseInt`s to
an integer k with 1 ≤ k ≤ 50 the session advances to ASK_DATE with
party_size k (a single write), and for every other such message nothing is
written (state and stored fields unchanged) and the invalid-quantity prompt
is replied; 1 and 50 are the exact bounds. -/
theorem C8_ask_party_size (env : WebhookEnv) (b : WebhookBody) (now t f : String)
    (row : Session)
    (hx : extractMsg b = some (t, f))
    (hg : isGlobalCmd (normalizeText t) = false)
    (hdb : env.getSessionErr = false)
    (hrow : env.sessionRow = some row)
    (hstate : row.state = "ASK_PARTY_SIZE")
    (hup : env.upsertFail 0 = false) :
    (∀ k : Int, jsParseInt (normalizeText t) = some k → 1 ≤ k → k ≤ 50 →
      (postWebhook env b now).2.upserts =
        [("ASK_PARTY_SIZE",
          [("wa_id", JVal.s f), ("state", JVal.s "ASK_DATE"),
           ("party_size", JVal.i k), ("updated_at", JVal.s now)])]) ∧
    ((∀ k : Int, jsParseInt (normalizeText t) = some k → k < 1 ∨ 50 < k) →
      (postWebhook env b now).2.upserts = [] ∧
      (postWebhook env b now).2.sends = [(f, invalidQtyText)]) := by
  have hg5 := hg
  unfold isGlobalCmd at hg5
  simp only [Bool.or_eq_false_iff] at hg5
  obtain ⟨⟨⟨⟨hm, hh⟩, hhi⟩, hre⟩, hrs⟩ := hg5
  have heffs : webhookEffs env b =
      (askPartySizeStep f (normalizeText t)).1 ++
        [.send f (askPartySizeStep f (normalizeText t)).2] := by
    unfold webhookEffs
    simp only [hx]
    rw [if_neg (by simp [hm, hh, hhi])]
    rw [if_neg (by simp [hre, hrs])]
    rw [if_neg (by simp [hdb])]
    simp only [hrow]
    have hd : dispatchStep env f (normalizeText t) row = askPartySizeStep f (normalizeText t) := by
      unfold dispatchStep
      rw [hstate]
      exact rfl
    rw [hd]
  constructor
  · intro k hk h1 h50
    have hstep : (askPartySizeStep f (normalizeText t)).1 =
        [.upsert f [("state", JVal.s "ASK_DATE"), ("party_size", JVal.i k)]] := by
      unfold askPartySizeStep
      simp only [hk]
      rw [if_neg (by simp only [Bool.or_eq_true, decide_eq_true_eq, not_or]; exact ⟨by omega, by omega⟩)]
    rw [postWebhook_snd, heffs, hstep]
    by_cases hsf : env.sendFail = true <;>
      simp [runEffs, hup, hsf, stateOfRow, hrow, hstate, upsertPayload]
  · intro hbad
    have hstep : askPartySizeStep f (normalizeText t) = ([], invalidQtyText) := by
      cases hjp : jsParseInt (normalizeText t) with
      | none =>
        unfold askPartySizeStep
        simp only [hjp]
      | some k =>
        unfold askPartySizeStep
        simp only [hjp]
        rw [if_pos (by simp only [Bool.or_eq_true, decide_eq_true_eq]; exact hbad k hjp)]
    rw [postWebhook_snd, heffs, hstep]
    by_cases hsf : env.sendFail = true <;>
      simp [runEffs, hsf]

/-- C8 witness: with a stored ASK_PARTY_SIZE session, the boundary message
"50" advances the session to ASK_DATE with party_size 50. -/
theorem C8_ask_party_size_witness :
    (postWebhook
        { sessionRow := some { state := "ASK_PARTY_SIZE", restaurant_code := some "deliclub" } }
        { text := some "50", sender := some "549" } "T").2.upserts =
      [("ASK_PARTY_SIZE",
        [("wa_id", JVal.s "549"), ("state", JVal.s "ASK_DATE"),
         ("party_size", JVal.i 50), ("updated_at", JVal.s "T")])] :=
  (C8_ask_party_size
      { sessionRow := some { state := "ASK_PARTY_SIZE", restaurant_code := some "deliclub" } }
      { text := some "50", sender := some "549" } "T" "50" "549"
      { state := "ASK_PARTY_SIZE", restaurant_code := some "deliclub" }
      rfl (by decide) rfl rfl rfl rfl).1
    50 rfl (by decide) (by decide)
/-- Updating unmatched rows is the identity on the reservations table. -/
theorem cancel_map_eq_self (db : List (String × String)) (rid : String)
    (h : (db.filter fun r => r.1 == rid) = []) :
    (db.map fun r => if r.1 == rid then (r.1, "CANCELLED") else r) = db := by
  induction db with
  | nil => rfl
  | cons hd tl ih =>
    simp only [List.filter_cons] at h
    split at h
    · exact absurd h (by simp)
    · rename_i hc
      rw [List.map_cons, if_neg hc, ih h]

/-- Every row the cancel update returns carries status CANCELLED. -/
theorem cancelled_of_mem_filter (db : List (String × String)) (rid : String) :
    ∀ r0 ∈ (db.map fun r => if r.1 == rid then (r.1, "CANCELLED") else r).filter
      (fun r => r.1 == rid), r0.2 = "CANCELLED" := by
  intro r0 h
  rw [List.mem_filter] at h
  obtain ⟨hmem, hpred⟩ := h
  rw [List.mem_map] at hmem
  obtain ⟨r, hr, heq⟩ := hmem
  by_cases hc : (r.1 == rid) = true
  · rw [if_pos hc] at heq
    rw [← heq]
  · rw [if_neg hc] at heq
    subst heq
    exact absurd hpred hc

/-- C6: GET /webhook answers HTTP 200 echoing the hub.challenge value exactly
when hub.mode is "subscribe" and hub.verify_token equals the configured
verify token; every other request gets HTTP 403. -/
theorem C6_webhook_verify (e m t c : Option String) :
    (getWebhookVerify e m t c = (200, c) ↔ (m = some "subscribe" ∧ t = e)) ∧
    (¬(m = some "subscribe" ∧ t = e) → getWebhookVerify e m t c = (403, none)) := by
  unfold getWebhookVerify
  by_cases hm : m = some "subscribe" <;> by_cases ht : t = e <;>
    simp [hm, ht]

/-- C6 witness: the correct handshake is echoed, a wrong token is rejected. -/
theorem C6_webhook_verify_witness :
    getWebhookVerify (some "tok") (some "subscribe") (some "tok") (some "ch") =
      (200, some "ch") ∧
    getWebhookVerify (some "tok") (some "subscribe") (some "bad") (some "ch") =
      (403, none) :=
  ⟨(C6_webhook_verify (some "tok") (some "subscribe") (some "tok") (some "ch")).1.mpr
      ⟨rfl, rfl⟩,
   (C6_webhook_verify (some "tok") (some "subscribe") (some "bad") (some "ch")).2
      (by simp)⟩

/-- C4: whenever the validation condition of GET /availability, GET
/alternatives or POST /reserve fires (a falsy required parameter — which
includes a missing one — or a party value that parseInts to NaN), the handler
answers exactly HTTP 400 with the error message and performs no
remote-procedure call (and, for /reserve, no insert). -/
theorem C4_malformed_input_400 :
    (∀ (rpc : Except String (List Avail)) (q : AvailQuery),
      (!truthy q.restaurant || !truthy q.date || !truthy q.service ||
        (jsParseIntOpt q.party).isNone) = true →
      getAvailability rpc q = (.badRequest availMissingMsg, [])) ∧
    (∀ (rpc : Except String (List AltSlot)) (q : AltQuery),
      (!truthy q.restaurant || !truthy q.date || !truthy q.service ||
        (jsParseIntOpt q.party).isNone) = true →
      getAlternatives rpc q = (.badRequest altMissingMsg, [])) ∧
    (∀ (env : ReserveEnv) (b : ReserveBody),
      (!truthy b.restaurant || !truthy b.date || !truthy b.service ||
        (jsParseIntOpt b.party).isNone || !truthy b.customer_name ||
        !truthy b.customer_phone) = true →
      postReserve env b = (.badRequest reserveMissingMsg, [], [])) := by
  refine ⟨?_, ?_, ?_⟩
  · intro rpc q h
    simp only [getAvailability]
    rw [if_pos h]
  · intro rpc q h
    simp only [getAlternatives]
    rw [if_pos h]
  · intro env b h
    simp only [postReserve]
    rw [if_pos h]

/-- C4 witness: the empty /availability query is rejected with 400 and no
remote call. -/
theorem C4_malformed_input_400_witness :
    getAvailability (Except.ok []) {} = (.badRequest availMissingMsg, []) :=
  C4_malformed_input_400.1 (Except.ok []) {} (by decide)

/-- C5: POST /cancel — a missing (falsy) reservation_id yields HTTP 400; a
database error yields HTTP 500 with the message; an id matching no
reservation yields HTTP 404; otherwise the matched reservations get status
CANCELLED and the handler answers ok with the first updated row, whose
status is CANCELLED. -/
theorem C5_cancel (updateErr : Option String) (db : List (String × String))
    (rid : Option String) :
    (truthy rid = false →
      postCancel updateErr db rid = (.badRequest "Missing reservation_id", db)) ∧
    (∀ m, truthy rid = true → updateErr = some m →
      postCancel updateErr db rid = (.dbError m, db)) ∧
    (truthy rid = true → updateErr = none →
      (db.filter fun r => r.1 == rid.getD "") = [] →
      postCancel updateErr db rid = (.notFound "Reservation not found", db)) ∧
    (∀ r0 rest, truthy rid = true → updateErr = none →
      ((db.map fun r => if r.1 == rid.getD "" then (r.1, "CANCELLED") else r).filter
        fun r => r.1 == rid.getD "") = r0 :: rest →
      postCancel updateErr db rid =
        (.success r0.1 r0.2,
         db.map fun r => if r.1 == rid.getD "" then (r.1, "CANCELLED") else r) ∧
      r0.2 = "CANCELLED") := by
  refine ⟨?_, ?_, ?_, ?_⟩
  · intro h
    simp only [postCancel]
    rw [if_pos (by simp [h])]
  · intro m ht he
    simp only [postCancel]
    rw [if_neg (by simp [ht])]
    simp only [he]
  · intro ht he hf
    simp only [postCancel]
    rw [if_neg (by simp [ht])]
    simp only [he]
    rw [cancel_map_eq_self db (rid.getD "") hf]
    simp only [hf]
  · intro r0 rest ht he hfilter
    constructor
    · simp only [postCancel]
      rw [if_neg (by simp [ht])]
      simp only [he]
      simp only [hfilter]
    · exact cancelled_of_mem_filter db (rid.getD "") r0
        (hfilter ▸ List.mem_cons_self r0 rest)

/-- C5 witness: cancelling an existing reservation flips its status to
CANCELLED and returns it. -/
theorem C5_cancel_witness :
    postCancel none [("abc", "CONFIRMED")] (some "abc") =
      (.success "abc" "CANCELLED", [("abc", "CANCELLED")]) ∧
    "CANCELLED" = "CANCELLED" :=
  ((C5_cancel none [("abc", "CONFIRMED")] (some "abc")).2.2.2
    ("abc", "CANCELLED") [] (by decide) rfl (by decide)).imp id (fun h => rfl)

/-- C3: for a well-formed POST /reserve body (all six fields truthy and party
parsing to a number): if check_availability returns without error a result
whose first row is absent or has ok ≠ true, the handler answers 409 carrying
a reason and inserts nothing; if the first row has ok = true, the restaurant
code resolves to a row and the insert succeeds returning the new id, the
handler inserts exactly one reservation with status CONFIRMED built from the
request and answers ok with that id. -/
theorem C3_reserve (env : ReserveEnv) (b : ReserveBody)
    (hwf : (!truthy b.restaurant || !truthy b.date || !truthy b.service ||
      (jsParseIntOpt b.party).isNone || !truthy b.customer_name ||
      !truthy b.customer_phone) = false) :
    (∀ availData, env.checkAvail = .ok availData →
      (availData.head?.map Avail.ok == some true) = false →
      (postReserve env b).1 =
        .conflict (reasonOrDefault availData.head?) availData.head? ∧
      ((postReserve env b).1).status = some 409 ∧
      (postReserve env b).2.2 = []) ∧
    (∀ availData a rid rest iid irest,
      env.checkAvail = .ok availData → availData.head? = some a → a.ok = true →
      env.restaurantsErr = none →
      ((env.restaurants.filter fun rc => rc.1 == b.restaurant.getD "").map
        Prod.snd).take 1 = rid :: rest →
      env.insertRes = .ok (iid :: irest) →
      (postReserve env b).1 = .success iid ∧
      (postReserve env b).2.2 =
        [{ restaurant_id := rid,
           customer_name := b.customer_name.getD "",
           customer_phone := b.customer_phone.getD "",
           party_size := (jsParseIntOpt b.party).getD 0,
           service_date := b.date.getD "",
           service := b.service.getD "",
           status := "CONFIRMED" }]) := by
  constructor
  · intro availData hca hnotok
    simp only [postReserve]
    rw [if_neg (by simp [hwf])]
    simp only [hca]
    rw [if_pos (by simp only [Bool.not_eq_eq_eq_not, Bool.not_true]; exact hnotok)]
    exact ⟨rfl, rfl, rfl⟩
  · intro availData a rid rest iid irest hca hhead hok herr hrows hins
    simp only [postReserve]
    rw [if_neg (by simp [hwf])]
    simp only [hca, hhead]
    rw [if_neg (by simp [hok])]
    simp only [herr, hrows, hins]
    exact ⟨by first | rfl | trivial, by first | rfl | trivial⟩

/-- C3 witness: a fully specified body with an available slot and a resolving
restaurant code yields ok with the inserted id and one CONFIRMED row. -/
theorem C3_reserve_witness :
    (postReserve
        { checkAvail := .ok [{ ok := true }],
          restaurants := [("deliclub", "r1")],
          insertRes := .ok ["id1"] }
        { restaurant := some "deliclub", date := some "2026-01-25",
          service := some "LUNCH", party := some "4",
          customer_name := some "Ana", customer_phone := some "549" }).1 =
      .success "id1" ∧
    (postReserve
        { checkAvail := .ok [{ ok := true }],
          restaurants := [("deliclub", "r1")],
          insertRes := .ok ["id1"] }
        { restaurant := some "deliclub", date := some "2026-01-25",
          service := some "LUNCH", party := some "4",
          customer_name := some "Ana", customer_phone := some "549" }).2.2 =
      [{ restaurant_id := "r1", customer_name := "Ana", customer_phone := "549",
         party_size := 4, service_date := "2026-01-25", service := "LUNCH",
         status := "CONFIRMED" }] :=
  (C3_reserve
      { checkAvail := .ok [{ ok := true }],
        restaurants := [("deliclub", "r1")],
        insertRes := .ok ["id1"] }
      { restaurant := some "deliclub", date := some "2026-01-25",
        service := some "LUNCH", party := some "4",
        customer_name := some "Ana", customer_phone := some "549" }
      (by decide)).2
    [{ ok := true }] { ok := true } "r1" [] "id1" []
    rfl rfl rfl rfl (by decide) rfl

/-- C10: for a well-formed GET /alternatives request, an absent days
parameter makes the handler call suggest_alternatives with p_days_ahead 14,
and a present, non-empty days value that parseInts to k is passed as k. -/
theorem C10_alternatives_days (rpc : Except String (List AltSlot)) (q : AltQuery)
    (hwf : (!truthy q.restaurant || !truthy q.date || !truthy q.service ||
      (jsParseIntOpt q.party).isNone) = false) :
    (q.days = none →
      (getAlternatives rpc q).2 =
        [RpcCall.suggestAlternatives q.restaurant q.date q.service
          (jsParseIntOpt q.party) (some 14)]) ∧
    (∀ ds k, q.days = some ds → ds ≠ "" → jsParseInt ds = some k →
      (getAlternatives rpc q).2 =
        [RpcCall.suggestAlternatives q.restaurant q.date q.service
          (jsParseIntOpt q.party) (some k)]) := by
  constructor
  · intro hnone
    simp only [getAlternatives, hnone]
    rw [if_neg (by simp [hwf])]
    cases rpc <;> rfl
  · intro ds k hds hne hk
    simp only [getAlternatives, hds]
    rw [if_neg (by simp [hwf])]
    have ht : truthy (some ds) = true := by simp [truthy, hne]
    rw [ht]
    have hjp : jsParseIntOpt (some ds) = some k := hk
    rw [hjp]
    cases rpc <;> rfl

/-- C10 witness: without days the call carries 14; with days "7" it carries 7. -/
theorem C10_alternatives_days_witness :
    (getAlternatives (Except.ok [])
        { restaurant := some "deliclub", date := some "2026-01-25",
          service := some "LUNCH", party := some "4" }).2 =
      [RpcCall.suggestAlternatives (some "deliclub") (some "2026-01-25")
        (some "LUNCH") (some 4) (some 14)] ∧
    (getAlternatives (Except.ok [])
        { restaurant := some "deliclub", date := some "2026-01-25",
          service := some "LUNCH", party := some "4", days := some "7" }).2 =
      [RpcCall.suggestAlternatives (some "deliclub") (some "2026-01-25")
        (some "LUNCH") (some 4) (some 7)] :=
  ⟨(C10_alternatives_days (Except.ok [])
      { restaurant := some "deliclub", date := some "2026-01-25",
        service := some "LUNCH", party := some "4" } (by decide)).1 rfl,
   (C10_alternatives_days (Except.ok [])
      { restaurant := some "deliclub", date := some "2026-01-25",
        service := some "LUNCH", party := some "4", days := some "7" }
      (by decide)).2 "7" 7 rfl (by decide) rfl⟩

end WhatsappReservas
